import Mathlib

/-!
Shallow embedding of the S&P 500 screener (src/apps.py).

Numbers are modelled as exact rationals.  The two network collaborators
(`pd.read_csv` for the ticker universe, `yf.download` for per-ticker bars) are
modelled as explicit parameters; an exception raised by a collaborator is a
distinguished value (`none`, `FetchResult.err`).
-/

namespace Screener

/-- Arithmetic mean of a list of rationals (pandas `Series.mean`). -/
def mean (xs : List ℚ) : ℚ := xs.sum / xs.length

/-- Round a rational to the nearest integer, halves to the even neighbour
(Python `round` / format rounding). -/
def roundHalfEven (q : ℚ) : ℤ :=
  if q - ⌊q⌋ < 1/2 then ⌊q⌋
  else if 1/2 < q - ⌊q⌋ then ⌊q⌋ + 1
  else if ⌊q⌋ % 2 = 0 then ⌊q⌋ else ⌊q⌋ + 1

/-- Python `round(x, 2)`. -/
def round2 (q : ℚ) : ℚ := (roundHalfEven (q * 100) : ℚ) / 100

/-- Python `round(x, 1)` (the `:.1f` format). -/
def round1 (q : ℚ) : ℚ := (roundHalfEven (q * 10) : ℚ) / 10

/-- Latest value of pandas `ewm(alpha=a, adjust=True).mean()` over a series:
the weighted average whose weights decay by `(1-a)` per step back in time. -/
def ewmAdjustLast (a : ℚ) (ys : List ℚ) : ℚ :=
  let p := ys.foldl (fun (nd : ℚ × ℚ) x => ((1 - a) * nd.1 + x, (1 - a) * nd.2 + 1)) (0, 0)
  p.1 / p.2

/-- pandas_ta `rma(series, length)` latest value: Wilder smoothing, i.e.
`ewm(alpha=1/length, adjust=True).mean()`. -/
def rma_last (ys : List ℚ) (length : ℕ) : ℚ := ewmAdjustLast (1 / (length : ℚ)) ys

/-- Consecutive differences `close.diff(1)`, without the leading NaN. -/
def diffs (close : List ℚ) : List ℚ :=
  (close.zip close.tail).map (fun p => p.2 - p.1)

/-- pandas_ta `ta.rsi(close, length)`: the latest RSI value; `none` when the
series is shorter than `length` (pandas_ta `verify_series` returns None and so
does the indicator). -/
def ta_rsi (close : List ℚ) (length : ℕ) : Option ℚ :=
  if close.length < length then none
  else
    let d := diffs close
    let positive := d.map (fun x => if x < 0 then 0 else x)
    let negative := d.map (fun x => if 0 < x then 0 else x)
    let positive_avg := rma_last positive length
    let negative_avg := |rma_last negative length|
    some (100 * positive_avg / (positive_avg + negative_avg))

/-- pandas_ta `ta.ema(close, length)` (default `sma=True`, `adjust=False`):
seeded with the simple average of the first `length` values, then the
recursion `e := (1-a)*e + a*x` with `a = 2/(length+1)`; latest value, `none`
when the series is shorter than `length`. -/
def ta_ema (close : List ℚ) (length : ℕ) : Option ℚ :=
  if close.length < length then none
  else
    let a : ℚ := 2 / ((length : ℚ) + 1)
    some ((close.drop length).foldl (fun e x => (1 - a) * e + a * x)
      (mean (close.take length)))

/-- One OHLCV bar; the screener consumes only `close` and `volume`. -/
structure Bar where
  close : ℚ
  volume : ℚ
deriving Repr, DecidableEq

/-- The five caller-supplied filter settings of `run_screener`. -/
structure FilterConfig where
  use_rsi : Bool
  rsi_thresh : ℚ
  use_ema : Bool
  ema_tol : ℚ
  use_vol : Bool
deriving Repr, DecidableEq

/-- One row appended to `candidates` in `run_screener`:
ticker, `round(final_close, 2)`, `round(current_rsi, 2)`, the signed
`raw_dist_pct` and the hidden `_abs_dist` sort key. -/
structure Candidate where
  ticker : String
  kurs : ℚ
  rsi : ℚ
  dist_pct : ℚ
  abs_dist : ℚ
deriving Repr, DecidableEq

/-- Result of `yf.download` for one ticker: bars, or a raised exception. -/
inductive FetchResult
  | ok (df : List Bar)
  | err
deriving Repr, DecidableEq

/-- Which control path one iteration of `run_screener`'s loop takes. -/
inductive EvalOutcome
  | insufficientData
  | noMatch
  | candidate (c : Candidate)
  | error
deriving Repr, DecidableEq

/-- The per-ticker body of `run_screener`'s loop (src/apps.py lines 41-103),
parametrised by the indicator library calls (`ta.rsi(·, 14)`, `ta.ema(·, 50)`),
each of which may report "unavailable" (`none`).  Mirrors the source line by
line: the skip when fewer than 50 bars; `current_rsi`, `raw_dist_pct` and
`abs_dist_pct` initialised to 0 and overwritten only when the indicator series
exists; `match_rsi`/`match_ema` forced to False when it does not; the volume
means computed only under `use_vol`; the append gated on all three flags. -/
def evalBarsWith (rsiF emaF : List ℚ → Option ℚ) (t : String) (df : List Bar)
    (cfg : FilterConfig) : EvalOutcome :=
  if df.length < 50 then .insufficientData
  else
    let close := df.map Bar.close
    let volume := df.map Bar.volume
    let final_close := close.getLastD 0
    let rsiRes := rsiF close
    let current_rsi : ℚ :=
      match rsiRes with
      | some r => r
      | none => 0
    let match_rsi : Bool :=
      match rsiRes with
      | some r => !(cfg.use_rsi && decide (cfg.rsi_thresh < r))
      | none => false
    let emaRes := emaF close
    let raw_dist_pct : ℚ :=
      match emaRes with
      | some e => (final_close - e) / e * 100
      | none => 0
    let abs_dist_pct : ℚ :=
      match emaRes with
      | some e => |(final_close - e) / e * 100|
      | none => 0
    let match_ema : Bool :=
      match emaRes with
      | some e => !(cfg.use_ema && decide (cfg.ema_tol < |(final_close - e) / e * 100|))
      | none => false
    let match_vol : Bool :=
      if cfg.use_vol then
        let vol_recent := mean (volume.drop (volume.length - 3))
        let vol_prev := mean ((volume.drop (volume.length - 6)).take 3)
        !decide (vol_recent ≤ vol_prev)
      else true
    if match_rsi && match_ema && match_vol then
      .candidate ⟨t, round2 final_close, round2 current_rsi, raw_dist_pct, abs_dist_pct⟩
    else .noMatch

/-- The loop body with the concrete library calls `ta.rsi(close, 14)` and
`ta.ema(close, 50)`. -/
def evalBars (t : String) (df : List Bar) (cfg : FilterConfig) : EvalOutcome :=
  evalBarsWith (fun c => ta_rsi c 14) (fun c => ta_ema c 50) t df cfg

/-- One full loop iteration including the fetch; any exception raised while
fetching or evaluating the ticker is caught by the `except Exception: continue`
around the iteration. -/
def evalTicker (t : String) (fetch : FetchResult) (cfg : FilterConfig) : EvalOutcome :=
  match fetch with
  | .ok df => evalBars t df cfg
  | .err => .error

/-- `run_screener` (src/apps.py lines 26-110): iterate the universe in order and
collect the candidates; every non-candidate outcome contributes nothing. -/
def run_screener (tickers : List String) (fetch : String → FetchResult)
    (cfg : FilterConfig) : List Candidate :=
  tickers.filterMap (fun t =>
    match evalTicker t (fetch t) cfg with
    | .candidate c => some c
    | _ => none)

/-- The progress fractions `(i+1)/total_tickers` computed inside the loop
whenever `i % 10 == 0`: one entry per executed progress call. -/
def progressUpdates (tickers : List String) : List ℚ :=
  let total_tickers := tickers.length
  (List.range tickers.length).filterMap (fun i =>
    if i % 10 = 0 then some (((i : ℚ) + 1) / (total_tickers : ℚ)) else none)

/-- The documented contract of `results.sort_values(by="_abs_dist",
ascending=True)` (src/apps.py line 149, default kind='quicksort'): the
displayed table is a permutation of the candidate rows that is non-decreasing
in `_abs_dist`.  quicksort is not a stable kind, so the relative order of rows
with equal keys is not specified beyond this contract. -/
def sort_values (rows table : List Candidate) : Prop :=
  table.Perm rows ∧ table.Pairwise (fun a b => a.abs_dist ≤ b.abs_dist)

/-- What the left column renders below the scan button. -/
inductive Display
  | results (table : List Candidate) (count : ℕ)
  | idle
deriving Repr, DecidableEq

/-- src/apps.py lines 144-184: when `scan_results` exists and is non-empty,
show the hit count and the candidate table (whose displayed order is
constrained by the `sort_values` contract); otherwise the idle info text. -/
def renderResults (scan_results : Option (List Candidate)) : Display :=
  match scan_results with
  | some rs => if rs.isEmpty then .idle else .results rs rs.length
  | none => .idle

/-- `get_sp500_tickers` (src/apps.py lines 15-23): the CSV fetch either yields
the symbol column or raises; on exception the function shows `st.error` and
returns the empty list.  First component: the returned tickers; second: whether
a user-visible error was shown. -/
def get_sp500_tickers (network : Option (List String)) : List String × Bool :=
  match network with
  | some syms => (syms, false)
  | none => ([], true)

/-- The scan-button handler (src/apps.py lines 137-141): fetch the universe,
run the screener on whatever list came back, store the outcome in
`st.session_state['scan_results']`.  Returns the stored value and whether an
error was shown. -/
def scanButton (network : Option (List String)) (fetch : String → FetchResult)
    (cfg : FilterConfig) : Option (List Candidate) × Bool :=
  let p := get_sp500_tickers network
  (some (run_screener p.1 fetch cfg), p.2)

/-- The volume metric string in the detail view. -/
inductive VolFormat
  | millions (q : ℚ)
  | plain (q : ℚ)
deriving Repr, DecidableEq

/-- src/apps.py line 225:
`vol_str = f"{v/1e6:.1f}M" if v > 1e6 else f"{v:.0f}"`. -/
def vol_str (volume : ℚ) : VolFormat :=
  if 1000000 < volume then .millions (round1 (volume / 1000000))
  else .plain ((roundHalfEven volume : ℤ) : ℚ)

/-- A flat 50-bar series: every close 100, every volume 1000. -/
def flatDf : List Bar := List.replicate 50 ⟨100, 1000⟩

/-- Flat closes, volume jumping to 2000 over the last three bars. -/
def risingVolDf : List Bar := List.replicate 47 ⟨100, 1000⟩ ++ List.replicate 3 ⟨100, 2000⟩

/-- All three criteria disabled. -/
def cfgOff : FilterConfig := ⟨false, 30, false, 2, false⟩

/-- All three criteria enabled (the UI defaults). -/
def cfgOn : FilterConfig := ⟨true, 30, true, 2, true⟩

/-- RSI and EMA criteria enabled, volume criterion disabled. -/
def cfgMix : FilterConfig := ⟨true, 30, true, 2, false⟩

/-- A market-data stub: the ticker "BAD" raises, every other fetch returns the
flat series. -/
def fetchW : String → FetchResult :=
  fun t => if t = "BAD" then .err else .ok flatDf

end Screener

namespace Screener

/-! ### Helper lemmas -/

theorem exists_candidate_ite (b : Bool) (l : Candidate) :
    (∃ c, (if b then EvalOutcome.candidate l else EvalOutcome.noMatch) = .candidate c) ↔
      b = true := by
  cases b <;> simp

theorem evalBarsWith_candidate_shape (rsiF emaF : List ℚ → Option ℚ) (t : String)
    (df : List Bar) (cfg : FilterConfig) (c : Candidate)
    (h : evalBarsWith rsiF emaF t df cfg = .candidate c) :
    ∃ r e, rsiF (df.map Bar.close) = some r ∧ emaF (df.map Bar.close) = some e ∧
      c = ⟨t, round2 ((df.map Bar.close).getLastD 0), round2 r,
           ((df.map Bar.close).getLastD 0 - e) / e * 100,
           |((df.map Bar.close).getLastD 0 - e) / e * 100|⟩ := by
  by_cases h50 : df.length < 50
  · simp [evalBarsWith, h50] at h
  · cases hr : rsiF (df.map Bar.close) with
    | none => simp [evalBarsWith, h50, hr] at h
    | some r =>
      cases he : emaF (df.map Bar.close) with
      | none => simp [evalBarsWith, h50, hr, he] at h
      | some e =>
        refine ⟨r, e, rfl, rfl, ?_⟩
        simp only [evalBarsWith, h50, if_false, hr, he] at h
        split at h
        · split at h
          · exact (EvalOutcome.candidate.inj h).symm
          · exact EvalOutcome.noConfusion h
        · split at h
          · exact (EvalOutcome.candidate.inj h).symm
          · exact EvalOutcome.noConfusion h

/-! ### The claims -/

/-- Claim C1: for a series with at least 50 bars whose RSI and EMA indicators
are computable, `run_screener`'s loop body emits a Candidate if and only if all
three criteria pass: RSI passes iff not enabled or `rsi_latest ≤ rsi_thresh`
(strictly greater fails); EMA passes iff not enabled or the absolute
percentage distance to the EMA50 is at most the tolerance; volume passes iff
not enabled or the mean volume of the last 3 bars strictly exceeds the mean of
the 3 bars immediately preceding those. -/
theorem candidate_iff_all_criteria_pass (t : String) (df : List Bar) (cfg : FilterConfig)
    (r e : ℚ) (h50 : 50 ≤ df.length)
    (hr : ta_rsi (df.map Bar.close) 14 = some r)
    (he : ta_ema (df.map Bar.close) 50 = some e) :
    (∃ c, evalBars t df cfg = .candidate c) ↔
      ((cfg.use_rsi = false ∨ r ≤ cfg.rsi_thresh) ∧
       (cfg.use_ema = false ∨
         |((df.map Bar.close).getLastD 0 - e) / e * 100| ≤ cfg.ema_tol) ∧
       (cfg.use_vol = false ∨
         mean (((df.map Bar.volume).drop (df.length - 6)).take 3) <
           mean ((df.map Bar.volume).drop (df.length - 3)))) := by
  have h50' : ¬ df.length < 50 := not_lt.mpr h50
  simp only [evalBars, evalBarsWith, h50', if_false, hr, he]
  rw [exists_candidate_ite]
  cases hu : cfg.use_rsi <;> cases hv : cfg.use_ema <;> cases hw : cfg.use_vol <;>
    simp [hu, hv, hw, not_lt, not_le, and_assoc]

/-- Witness for C1 at the flat 50-bar series with the RSI and EMA criteria
enabled and the volume criterion disabled. -/
theorem candidate_iff_all_criteria_pass_witness :
    50 ≤ flatDf.length ∧
    ta_rsi (flatDf.map Bar.close) 14 = some 0 ∧
    ta_ema (flatDf.map Bar.close) 50 = some 100 ∧
    ((∃ c, evalBars "X" flatDf cfgMix = .candidate c) ↔
      ((cfgMix.use_rsi = false ∨ (0 : ℚ) ≤ cfgMix.rsi_thresh) ∧
       (cfgMix.use_ema = false ∨
         |((flatDf.map Bar.close).getLastD 0 - 100) / 100 * 100| ≤ cfgMix.ema_tol) ∧
       (cfgMix.use_vol = false ∨
         mean (((flatDf.map Bar.volume).drop (flatDf.length - 6)).take 3) <
           mean ((flatDf.map Bar.volume).drop (flatDf.length - 3))))) := by
  have h50 : 50 ≤ flatDf.length := by decide
  have hr : ta_rsi (flatDf.map Bar.close) 14 = some 0 := by
    norm_num [ta_rsi, flatDf, diffs, rma_last, ewmAdjustLast, List.replicate]
  have he : ta_ema (flatDf.map Bar.close) 50 = some 100 := by
    norm_num [ta_ema, flatDf, mean, List.replicate]
  exact ⟨h50, hr, he, candidate_iff_all_criteria_pass "X" flatDf cfgMix 0 100 h50 hr he⟩

/-- Two candidates with equal sort keys, tickers "A" and "B". -/
def cA : Candidate := ⟨"A", 10, 20, 1, 1⟩

/-- See `cA`: same `abs_dist`, lexicographically later ticker. -/
def cB : Candidate := ⟨"B", 11, 25, -1, 1⟩

/-- See `cA`: a third candidate with a strictly larger `abs_dist` key. -/
def cC : Candidate := ⟨"C", 12, 30, 2, 2⟩

/-- Counterexample to claim C2: for two candidates with equal
`abs_ema_distance` accumulated as [cB, cA], the display's single-key sort
contract admits the unchanged order [cB, cA], which differs from the
ticker-lexicographic tie-break order [cA, cB] the claim requires — the
quicksort kind used gives no tie-break guarantee at all (and on a pair this
small it demonstrably leaves the accumulation order in place). -/
theorem ranking_contract_admits_unbroken_tie :
    sort_values [cB, cA] [cB, cA] ∧ cB.abs_dist = cA.abs_dist ∧
    cA.ticker < cB.ticker ∧ ([cB, cA] : List Candidate) ≠ [cA, cB] := by
  refine ⟨⟨List.Perm.refl _, ?_⟩, rfl, ?_, ?_⟩
  · norm_num [cA, cB]
  · show ("A" : String) < "B"
    rw [String.lt_iff_toList_lt]
    exact List.Lex.rel (by decide)
  · simp [cA, cB]

/-- Claim C2 as amended: the displayed table is a permutation of the
accumulated Candidates that is non-decreasing in `abs_ema_distance`; the order
of equal-key candidates is unspecified (the default quicksort kind is not
stable), but when all `abs_ema_distance` keys are pairwise distinct the sort
contract admits exactly one order, so ranking is then a deterministic total
order and re-running it on its own output reproduces the same list. -/
theorem ranking_unique_ascending_when_distinct (rows table retable : List Candidate)
    (hd : rows.Pairwise (fun a b => a.abs_dist ≠ b.abs_dist))
    (h : sort_values rows table) (h2 : sort_values table retable) :
    table.Pairwise (fun a b => a.abs_dist ≤ b.abs_dist) ∧ table.Perm rows ∧
    retable = table := by
  obtain ⟨hp, hs⟩ := h
  obtain ⟨hp2, hs2⟩ := h2
  refine ⟨hs, hp, ?_⟩
  have hdt : table.Pairwise (fun a b => a.abs_dist ≠ b.abs_dist) :=
    (hp.pairwise_iff Ne.symm).mpr hd
  have hdt2 : retable.Pairwise (fun a b => a.abs_dist ≠ b.abs_dist) :=
    (hp2.pairwise_iff Ne.symm).mpr hdt
  have hst : table.Pairwise (fun a b => a.abs_dist < b.abs_dist) :=
    (List.Pairwise.and hs hdt).imp (fun hab => lt_of_le_of_ne hab.1 hab.2)
  have hst2 : retable.Pairwise (fun a b => a.abs_dist < b.abs_dist) :=
    (List.Pairwise.and hs2 hdt2).imp (fun hab => lt_of_le_of_ne hab.1 hab.2)
  haveI : IsAntisymm Candidate (fun a b => a.abs_dist < b.abs_dist) :=
    ⟨fun _ _ h1 h2 => absurd h1 (lt_asymm h2)⟩
  exact List.eq_of_perm_of_sorted hp2 hst2 hst

/-- Witness for the amended C2 on a tie-free candidate pair. -/
theorem ranking_unique_ascending_when_distinct_witness :
    ([cC, cA] : List Candidate).Pairwise (fun a b => a.abs_dist ≠ b.abs_dist) ∧
    sort_values [cC, cA] [cA, cC] ∧ sort_values [cA, cC] [cA, cC] ∧
    (([cA, cC] : List Candidate).Pairwise (fun a b => a.abs_dist ≤ b.abs_dist) ∧
      ([cA, cC] : List Candidate).Perm [cC, cA] ∧
      ([cA, cC] : List Candidate) = [cA, cC]) := by
  have hd : ([cC, cA] : List Candidate).Pairwise (fun a b => a.abs_dist ≠ b.abs_dist) := by
    norm_num [cA, cC]
  have h1 : sort_values [cC, cA] [cA, cC] :=
    ⟨List.Perm.swap cC cA [], by norm_num [cA, cC]⟩
  have h2 : sort_values [cA, cC] [cA, cC] :=
    ⟨List.Perm.refl _, by norm_num [cA, cC]⟩
  exact ⟨hd, h1, h2,
    ranking_unique_ascending_when_distinct [cC, cA] [cA, cC] [cA, cC] hd h1 h2⟩

/-- Claim C3: a series with fewer than 50 bars is skipped as insufficient data
(`if len(df) < 50: continue`) for every FilterConfig: no Candidate, and not
the exception path. -/
theorem short_series_insufficient_data (t : String) (df : List Bar) (cfg : FilterConfig)
    (h : df.length < 50) :
    evalTicker t (.ok df) cfg = .insufficientData := by
  simp [evalTicker, evalBars, evalBarsWith, h]

/-- Witness for C3 at the empty series. -/
theorem short_series_insufficient_data_witness :
    ([] : List Bar).length < 50 ∧
    evalTicker "X" (.ok []) cfgOn = .insufficientData :=
  ⟨by decide, short_series_insufficient_data "X" [] cfgOn (by decide)⟩

/-- Claim C4: when the RSI or the EMA indicator reports no value, the ticker is
excluded (no Candidate) for every FilterConfig, and non-fatally: the outcome is
the ordinary no-match path, not the exception path. -/
theorem indicator_unavailable_excluded (rsiF emaF : List ℚ → Option ℚ) (t : String)
    (df : List Bar) (cfg : FilterConfig) (h50 : 50 ≤ df.length)
    (h : rsiF (df.map Bar.close) = none ∨ emaF (df.map Bar.close) = none) :
    evalBarsWith rsiF emaF t df cfg = .noMatch := by
  have h50' : ¬ df.length < 50 := not_lt.mpr h50
  rcases h with h | h
  · simp [evalBarsWith, h50', h]
  · cases hr : rsiF (df.map Bar.close) <;> simp [evalBarsWith, h50', hr, h]

/-- Witness for C4 with an RSI engine that reports unavailable. -/
theorem indicator_unavailable_excluded_witness :
    50 ≤ flatDf.length ∧
    ((fun _ : List ℚ => (none : Option ℚ)) (flatDf.map Bar.close) = none ∨
      (fun _ : List ℚ => (some 1 : Option ℚ)) (flatDf.map Bar.close) = none) ∧
    evalBarsWith (fun _ => none) (fun _ => some 1) "X" flatDf cfgOn = .noMatch :=
  ⟨by decide, Or.inl rfl,
    indicator_unavailable_excluded (fun _ => none) (fun _ => some 1) "X" flatDf cfgOn
      (by decide) (Or.inl rfl)⟩

/-- Counterexample to claim C5: with the universe fetch failing, the button
handler does not abort — it still calls `run_screener` on the empty list and
stores a ResultSet (the empty one) in `st.session_state['scan_results']`. -/
theorem failed_universe_still_stores_resultset :
    scanButton none (fun _ => FetchResult.err) cfgOn = (some [], true) ∧
    (scanButton none (fun _ => FetchResult.err) cfgOn).1 ≠ none := by
  refine ⟨rfl, ?_⟩
  intro hnone
  exact Option.noConfusion
    ((rfl : (scanButton none (fun _ => FetchResult.err) cfgOn).1 = some []).symm.trans hnone)

/-- Claim C5 as amended: on universe-fetch failure the source returns the
empty sequence and a user-visible error is shown; the handler still runs the
screener over the empty universe (evaluating zero tickers), stores the empty
ResultSet, and the results panel then renders the idle state. -/
theorem failed_universe_error_empty_scan (fetch : String → FetchResult) (cfg : FilterConfig) :
    get_sp500_tickers none = ([], true) ∧
    run_screener [] fetch cfg = [] ∧
    scanButton none fetch cfg = (some [], true) ∧
    renderResults (scanButton none fetch cfg).1 = .idle :=
  ⟨rfl, rfl, rfl, rfl⟩

/-- Claim C6: an exception in one ticker's fetch/evaluation never propagates:
the screen over a universe containing the failing ticker equals the screen over
the universe with that ticker removed, so every other ticker's evaluation is
reflected unchanged. -/
theorem ticker_failure_isolated (cfg : FilterConfig) (fetch : String → FetchResult)
    (xs ys : List String) (t : String) (hf : fetch t = .err) :
    run_screener (xs ++ t :: ys) fetch cfg = run_screener (xs ++ ys) fetch cfg := by
  simp [run_screener, List.filterMap_append, List.filterMap_cons, hf, evalTicker]

/-- Witness for C6: "BAD" raises mid-universe; the scan result is unchanged. -/
theorem ticker_failure_isolated_witness :
    fetchW "BAD" = .err ∧
    run_screener (["A"] ++ "BAD" :: ["C"]) fetchW cfgOn =
      run_screener (["A"] ++ ["C"]) fetchW cfgOn :=
  ⟨rfl, ticker_failure_isolated cfgOn fetchW ["A"] ["C"] "BAD" rfl⟩

/-- Counterexample to claim C7: two series with opposite volume trends (the
flat one fails the rising test, the other passes it strictly) produce literally
identical Candidates when the volume criterion is disabled — the volume-trend
value is neither computed under a disabled flag nor carried into the output. -/
theorem volume_trend_not_in_output :
    evalBars "X" flatDf cfgOff = .candidate ⟨"X", 100, 0, 0, 0⟩ ∧
    evalBars "X" risingVolDf cfgOff = .candidate ⟨"X", 100, 0, 0, 0⟩ ∧
    mean ((flatDf.map Bar.volume).drop 47) ≤
      mean (((flatDf.map Bar.volume).drop 44).take 3) ∧
    ¬ mean ((risingVolDf.map Bar.volume).drop 47) ≤
      mean (((risingVolDf.map Bar.volume).drop 44).take 3) := by
  refine ⟨?_, ?_, ?_, ?_⟩
  · norm_num [evalBars, evalBarsWith, ta_rsi, ta_ema, diffs, rma_last, ewmAdjustLast,
      mean, flatDf, cfgOff, round2, roundHalfEven, List.replicate]
  · norm_num [evalBars, evalBarsWith, ta_rsi, ta_ema, diffs, rma_last, ewmAdjustLast,
      mean, risingVolDf, cfgOff, round2, roundHalfEven, List.replicate]
  · norm_num [mean, flatDf, List.replicate]
  · norm_num [mean, risingVolDf, List.replicate]

/-- Claim C7 as amended: the RSI, price and EMA-distance values carried into an
emitted Candidate are invariant to the FilterConfig — whenever two configs both
emit a Candidate for the same series, the Candidates are identical; flags only
gate inclusion.  (The volume trend is used only as a gate and never appears in
the output.) -/
theorem candidate_values_config_invariant (t : String) (df : List Bar)
    (cfg cfg' : FilterConfig) (c c' : Candidate)
    (h : evalBars t df cfg = .candidate c) (h' : evalBars t df cfg' = .candidate c') :
    c = c' := by
  simp only [evalBars] at h h'
  obtain ⟨r, e, hr, he, rfl⟩ := evalBarsWith_candidate_shape _ _ _ _ _ _ h
  obtain ⟨r', e', hr', he', rfl⟩ := evalBarsWith_candidate_shape _ _ _ _ _ _ h'
  have h1 : ta_rsi (df.map Bar.close) 14 = some r := hr
  have h2 : ta_rsi (df.map Bar.close) 14 = some r' := hr'
  have h3 : ta_ema (df.map Bar.close) 50 = some e := he
  have h4 : ta_ema (df.map Bar.close) 50 = some e' := he'
  obtain rfl : r = r' := Option.some.inj (h1.symm.trans h2)
  obtain rfl : e = e' := Option.some.inj (h3.symm.trans h4)
  rfl

/-- Witness for the amended C7: two different configs, same candidate. -/
theorem candidate_values_config_invariant_witness :
    evalBars "X" flatDf cfgOff = .candidate ⟨"X", 100, 0, 0, 0⟩ ∧
    evalBars "X" flatDf cfgMix = .candidate ⟨"X", 100, 0, 0, 0⟩ ∧
    (⟨"X", 100, 0, 0, 0⟩ : Candidate) = ⟨"X", 100, 0, 0, 0⟩ := by
  have h1 : evalBars "X" flatDf cfgOff = .candidate ⟨"X", 100, 0, 0, 0⟩ := by
    norm_num [evalBars, evalBarsWith, ta_rsi, ta_ema, diffs, rma_last, ewmAdjustLast,
      mean, flatDf, cfgOff, round2, roundHalfEven, List.replicate]
  have h2 : evalBars "X" flatDf cfgMix = .candidate ⟨"X", 100, 0, 0, 0⟩ := by
    norm_num [evalBars, evalBarsWith, ta_rsi, ta_ema, diffs, rma_last, ewmAdjustLast,
      mean, flatDf, cfgMix, round2, roundHalfEven, List.replicate]
  exact ⟨h1, h2, candidate_values_config_invariant "X" flatDf cfgOff cfgMix _ _ h1 h2⟩

/-- Claim C8: for an emitted Candidate with computable EMA50 `e > 0`, the
hidden sort key equals `|distance_pct|` exactly, `distance_pct` is
`(latest_close - e) / e * 100`, and it is positive iff the latest close
exceeds the EMA50 value. -/
theorem abs_distance_spec (t : String) (df : List Bar) (cfg : FilterConfig)
    (c : Candidate) (e : ℚ)
    (he : ta_ema (df.map Bar.close) 50 = some e) (hpos : 0 < e)
    (hc : evalBars t df cfg = .candidate c) :
    c.abs_dist = |c.dist_pct| ∧
    c.dist_pct = ((df.map Bar.close).getLastD 0 - e) / e * 100 ∧
    (0 < c.dist_pct ↔ e < (df.map Bar.close).getLastD 0) := by
  simp only [evalBars] at hc
  obtain ⟨r, e', hr', he', rfl⟩ := evalBarsWith_candidate_shape _ _ _ _ _ _ hc
  have he'' : ta_ema (df.map Bar.close) 50 = some e' := he'
  obtain rfl : e = e' := Option.some.inj (he.symm.trans he'')
  refine ⟨rfl, rfl, ?_⟩
  have key : ∀ x : ℚ, 0 < x / e * 100 ↔ 0 < x := by
    intro x
    rw [div_mul_eq_mul_div, div_pos_iff]
    constructor
    · rintro (⟨h1, _⟩ | ⟨_, h2⟩)
      · nlinarith
      · nlinarith
    · intro hx
      exact Or.inl ⟨by nlinarith, hpos⟩
  exact (key _).trans sub_pos

/-- Witness for C8 at the flat series: distance 0, EMA 100. -/
theorem abs_distance_spec_witness :
    ta_ema (flatDf.map Bar.close) 50 = some 100 ∧ (0 : ℚ) < 100 ∧
    evalBars "X" flatDf cfgOff = .candidate ⟨"X", 100, 0, 0, 0⟩ ∧
    ((⟨"X", 100, 0, 0, 0⟩ : Candidate).abs_dist =
        |(⟨"X", 100, 0, 0, 0⟩ : Candidate).dist_pct| ∧
      (⟨"X", 100, 0, 0, 0⟩ : Candidate).dist_pct =
        ((flatDf.map Bar.close).getLastD 0 - 100) / 100 * 100 ∧
      (0 < (⟨"X", 100, 0, 0, 0⟩ : Candidate).dist_pct ↔
        100 < (flatDf.map Bar.close).getLastD 0)) := by
  have hA : ta_ema (flatDf.map Bar.close) 50 = some 100 := by
    norm_num [ta_ema, flatDf, mean, List.replicate]
  have hB : (0 : ℚ) < 100 := by norm_num
  have hC : evalBars "X" flatDf cfgOff = .candidate ⟨"X", 100, 0, 0, 0⟩ := by
    norm_num [evalBars, evalBarsWith, ta_rsi, ta_ema, diffs, rma_last, ewmAdjustLast,
      mean, flatDf, cfgOff, round2, roundHalfEven, List.replicate]
  exact ⟨hA, hB, hC, abs_distance_spec "X" flatDf cfgOff ⟨"X", 100, 0, 0, 0⟩ 100 hA hB hC⟩

/-- Counterexample to claim C9: at a latest volume of exactly 1,000,000 the
detail view uses the plain format (the source tests `volume > 1e6`, strictly),
although 1,000,000 ≥ 1,000,000. -/
theorem vol_format_boundary_plain :
    vol_str 1000000 = .plain 1000000 ∧ (1000000 : ℚ) ≥ 1000000 := by
  constructor
  · norm_num [vol_str, roundHalfEven]
  · norm_num

/-- Claim C9 as amended: the latest volume is formatted as millions exactly
when it is strictly greater than 1,000,000. -/
theorem vol_format_millions_iff (v : ℚ) :
    (∃ q, vol_str v = VolFormat.millions q) ↔ 1000000 < v := by
  unfold vol_str
  split
  · next h => exact ⟨fun _ => h, fun _ => ⟨_, rfl⟩⟩
  · next h => simp [h]

/-- Claim C10: on the empty ticker universe `run_screener` returns the empty
result set, and the progress fraction `(i+1)/total_tickers` is computed zero
times because the per-ticker loop body never executes (so the division by the
zero `total_tickers` is unreachable). -/
theorem empty_universe_safe (fetch : String → FetchResult) (cfg : FilterConfig) :
    run_screener [] fetch cfg = [] ∧ ([] : List String).length = 0 ∧
    progressUpdates [] = [] :=
  ⟨rfl, rfl, rfl⟩

end Screener
